import Mathlib

/-!
Shallow embedding of the `cios` HTTP client (src/src/client/ApiClient.ts,
src/src/response/types.ts) and proofs about its request pipeline, retry
controller, cancellation token, interceptor chains and fan-out combinator.

JS strings are modelled as Lean `String`; `String.prototype.includes` is
modelled by an executable substring search.  JS numbers used in backoff
arithmetic are modelled as `ℚ` (the powers of two and products involved are
exact in IEEE doubles for the magnitudes at play).  The `[error, data]`
response tuple (`ApiResponse`) is modelled as `Option JsError × JsValue`,
where the data slot holds the JS value `null` (`JsValue.null`) whenever the
source writes the literal `null` into it.
-/

namespace Cios

/-- Substring search on character lists: JS `hay.includes(needle)`. -/
def containsSub (hay needle : List Char) : Bool :=
  match hay with
  | [] => needle.isEmpty
  | _ :: t => needle.isPrefixOf hay || containsSub t needle

/-- JS `hay.includes(needle)` on strings. -/
def jsIncludes (hay needle : String) : Bool :=
  containsSub hay.toList needle.toList

/-- Opaque model of a JS value as stored in the data slot of an
`ApiResponse` tuple or attached to an error (`null`, a string, or some
other decoded object identified by a tag). -/
inductive JsValue where
  | null
  | str (s : String)
  | obj (tag : Nat)
  deriving DecidableEq

/-- Model of the `ApiError` class (src ApiError.ts): message, optional
`statusCode`, optional `responseData` (absent models JS `undefined`). -/
structure ApiError where
  message : String
  statusCode : Option Nat
  responseData : Option JsValue
  deriving DecidableEq

/-- `ApiError.isTimeoutError`: substring test on the message. -/
def ApiError.isTimeoutError (e : ApiError) : Bool :=
  jsIncludes e.message "timeout" || jsIncludes e.message "timed out"

/-- `ApiError.isCancellationError`: substring test on the message. -/
def ApiError.isCancellationError (e : ApiError) : Bool :=
  jsIncludes e.message "cancel" || jsIncludes e.message "abort"

/-- The JS error values flowing through the pipeline: `TypeError`
(network failure from `fetch`), `ApiError`, or a plain `Error`. -/
inductive JsError where
  | typeError (message : String)
  | apiError (e : ApiError)
  | plainError (message : String)
  deriving DecidableEq

/-- The `message` property of any of the modelled error classes. -/
def JsError.message : JsError → String
  | .typeError m => m
  | .apiError e => e.message
  | .plainError m => m

/-- `retryStatusCodes?.includes(c)`: optional chaining gives a falsy
result when the list is absent. -/
def optIncludes (codes : Option (List Nat)) (c : Nat) : Bool :=
  match codes with
  | some l => l.contains c
  | none => false

/-- First guard of `ApiClient.shouldRetry` on an `ApiError`:
`error.statusCode && retryStatusCodes?.includes(error.statusCode)`
(`statusCode` must be present and truthy, i.e. nonzero). -/
def retryStatusMatch (codes : Option (List Nat)) : Option Nat → Bool
  | some c => c != 0 && optIncludes codes c
  | none => false

/-- Second guard of `ApiClient.shouldRetry` on an `ApiError`:
`error.statusCode && error.statusCode >= 500 && error.statusCode < 600`. -/
def serverErrorStatus : Option Nat → Bool
  | some c => c != 0 && decide (500 ≤ c) && decide (c < 600)
  | none => false

/-- `ApiClient.shouldRetry` (ApiClient.ts lines 694..718): retry
`TypeError`s; retry `ApiError`s whose status is in the configured set, or
is 5xx, or whose message looks like a timeout; everything else terminal. -/
def shouldRetry (err : JsError) (retryStatusCodes : Option (List Nat)) : Bool :=
  match err with
  | .typeError _ => true
  | .apiError e =>
      retryStatusMatch retryStatusCodes e.statusCode
        || serverErrorStatus e.statusCode
        || e.isTimeoutError
  | .plainError _ => false

/-- JS `reason || "Operation canceled by user"` — the fallback fires when
the argument is absent (`undefined`) or the empty string (falsy). -/
def orDefaultReason (r : Option String) : String :=
  match r with
  | some s => if s = "" then "Operation canceled by user" else s
  | none => "Operation canceled by user"

/-- Model of the `CancelToken` class state: the stored `_reason` (none
while pending) and the registered `_callbacks`, identified by tags. -/
structure CancelToken where
  reason : Option String
  callbacks : List Nat
  deriving DecidableEq

/-- `CancelToken.cancel(reason?)` (ApiClient.ts lines 844..848): store
`reason || default`, invoke every registered callback with the stored
reason, then clear the callback list.  Returns the new token state and
the list of callbacks that were notified by this call. -/
def CancelToken.cancel (t : CancelToken) (r : Option String) :
    CancelToken × List Nat :=
  ({ reason := some (orDefaultReason r), callbacks := [] }, t.callbacks)

/-- `CancelToken.register(callback)`: invoke immediately when already
cancelled, otherwise append to the callback list.  Returns the new state
and whether the callback was invoked synchronously. -/
def CancelToken.register (t : CancelToken) (cb : Nat) : CancelToken × Bool :=
  match t.reason with
  | some _ => (t, true)
  | none => ({ t with callbacks := t.callbacks ++ [cb] }, false)

/-- A raw transport response: status, `statusText`, whether the
`content-type` header mentions `application/json`, and the body read as
text. -/
structure RawResponse where
  status : Nat
  statusText : String
  contentTypeJson : Bool
  bodyText : String
  deriving DecidableEq

/-- What one transport invocation does: reject with a JS error (network
`TypeError`, timeout `Error`, ...) or resolve with a response. -/
inductive FetchResult where
  | throws (e : JsError)
  | ok (r : RawResponse)
  deriving DecidableEq

/-- The default `validateStatus` predicate: `status >= 200 && status < 300`. -/
def defaultValidateStatus (s : Nat) : Bool :=
  decide (200 ≤ s) && decide (s < 300)

/-- The merged per-request configuration consumed by
`ApiClient.request`, restricted to the fields the pipeline logic reads:
the initial retry budget `retries` (`mergedOptions.retries || 0`), the
client-level `defaultOptions.retries` value (`defaultRetries`) consulted
by `retryRequest`'s backoff formula, the effective base `retryDelay`, the
merged `retryStatusCodes`, the merged `validateStatus`, and the state of
the attached cancel token at dispatch time (`none` = no token or a
pending token; `some r` = a token already cancelled with stored reason
`r`). -/
structure Config where
  retries : Nat
  defaultRetries : Nat
  retryDelay : ℚ
  retryStatusCodes : Option (List Nat)
  validateStatus : Nat → Bool
  tokenReason : Option String

/-- The `ApiError` thrown by `CancelToken.throwIfRequested` for stored
reason `r`: message `Request canceled: r`, no status code, the reason as
`responseData`. -/
def cancelFailure (r : String) : JsError :=
  .apiError { message := "Request canceled: " ++ r
              statusCode := none
              responseData := some (.str r) }

/-- The `ApiError` thrown by the status-validation stage: message
`Request failed with status s`, the status, and the best-effort decoded
error body. -/
def httpStatusFailure (s : Nat) (errorData : JsValue) : JsError :=
  .apiError { message := "Request failed with status " ++ Nat.repr s
              statusCode := some s
              responseData := some errorData }

/-- The terminal decode failure surfaced by `ApiClient.request` when
`JSON.parse` rejects the body: the inner `Failed to parse JSON response`
`ApiError` (which carries the raw text) escapes into the enclosing
`catch (processingError)` block, which wraps it in a fresh
`Failed to process response` `ApiError` whose `responseData` is
`undefined`. -/
def jsonDecodeFailure (status : Nat) (parseMsg : String) : JsError :=
  .apiError { message := "Failed to process response: " ++
                ("Failed to parse JSON response: " ++ parseMsg)
              statusCode := some status
              responseData := none }

/-- The best-effort error body captured when status validation rejects:
parse the cloned body as JSON when the content type says JSON (falling
back to the status text when that parse rejects), otherwise take the raw
text. -/
def bestEffortErrorData (parse : String → Except String JsValue)
    (r : RawResponse) : JsValue :=
  if r.contentTypeJson then
    match parse r.bodyText with
    | .ok v => v
    | .error _ => .str r.statusText
  else .str r.bodyText

/-- One pass through the body of `ApiClient.request`'s `try` block for a
`responseType: json` request without progress observers (ApiClient.ts
lines 444..591): cancellation check, transport call, status validation
(with best-effort error-body capture), then JSON decoding with the
empty-body special case.  `parse` models `JSON.parse` / `response.json()`
(error value = the parse error's message).  Returns the attempt's
`Except` outcome together with whether the transport was dispatched. -/
def attempt (cfg : Config) (parse : String → Except String JsValue)
    (f : FetchResult) : Except JsError JsValue × Bool :=
  match cfg.tokenReason with
  | some r => (.error (cancelFailure r), false)
  | none =>
    match f with
    | .throws e => (.error e, true)
    | .ok r =>
      if cfg.validateStatus r.status then
        if r.bodyText = "" then (.ok .null, true)
        else
          match parse r.bodyText with
          | .ok v => (.ok v, true)
          | .error pm => (.error (jsonDecodeFailure r.status pm), true)
      else (.error (httpStatusFailure r.status (bestEffortErrorData parse r)), true)

/-- `ApiClient.applyErrorInterceptors`: fold the error through the
registered error interceptors in order. -/
def applyErrorInterceptors (chain : List (JsError → JsError)) (e : JsError) :
    JsError :=
  chain.foldl (fun acc f => f acc) e

/-- The observable result of one logical request: the `[error, data]`
tuple, the backoff delays waited (in order), the number of transport
dispatches, and the list of errors handed to the error-interceptor
chain. -/
structure LoopResult where
  outcome : Option JsError × JsValue
  delays : List ℚ
  dispatches : Nat
  errChainInputs : List JsError
  deriving DecidableEq

/-- Successful exit of `ApiClient.request`: `return [null, responseData]`. -/
def mkSuccess (v : JsValue) (d : Bool) : LoopResult :=
  { outcome := (none, v)
    delays := []
    dispatches := bif d then 1 else 0
    errChainInputs := [] }

/-- Terminal-failure exit of `ApiClient.request`: apply the error
interceptors once and `return [processedError, null]`. -/
def mkTerminal (chain : List (JsError → JsError)) (e : JsError) (d : Bool) :
    LoopResult :=
  { outcome := (some (applyErrorInterceptors chain e), .null)
    delays := []
    dispatches := bif d then 1 else 0
    errChainInputs := [e] }

/-- The retry loop of `ApiClient.request` / `ApiClient.retryRequest`:
on failure, when `retries > 0 && shouldRetry(...)`, wait
`retryDelay * 2 ^ (defaultOptions.retries - retriesLeft)` and re-enter
the pipeline with `retries: retriesLeft - 1`; otherwise apply the error
interceptors and return the error half of the tuple.  First `Nat`
argument is the remaining budget, second is the 0-based attempt index
(selecting this attempt's transport behaviour from `attempts`). -/
def requestLoop (cfg : Config) (chain : List (JsError → JsError))
    (parse : String → Except String JsValue)
    (attempts : Nat → FetchResult) : Nat → Nat → LoopResult
  | 0, k =>
    match attempt cfg parse (attempts k) with
    | (.ok v, d) => mkSuccess v d
    | (.error e, d) => mkTerminal chain e d
  | r + 1, k =>
    match attempt cfg parse (attempts k) with
    | (.ok v, d) => mkSuccess v d
    | (.error e, d) =>
      if shouldRetry e cfg.retryStatusCodes then
        let delay := cfg.retryDelay *
          (2 : ℚ) ^ ((cfg.defaultRetries : ℤ) - ((r + 1 : Nat) : ℤ))
        let rest := requestLoop cfg chain parse attempts r (k + 1)
        { outcome := rest.outcome
          delays := delay :: rest.delays
          dispatches := (bif d then 1 else 0) + rest.dispatches
          errChainInputs := rest.errChainInputs }
      else mkTerminal chain e d

/-- One logical request on the fetch path: enter the loop with the
configured budget. -/
def requestDispatch (cfg : Config) (chain : List (JsError → JsError))
    (parse : String → Except String JsValue)
    (attempts : Nat → FetchResult) : LoopResult :=
  requestLoop cfg chain parse attempts cfg.retries 0

/-- The event that settles an `XMLHttpRequest`: `onload` with a status
and the response text, `onerror` (network error, with the XHR's status,
0 when none), or `ontimeout` (with the XHR's status and the configured
timeout in ms used in the message). -/
inductive XhrEvent where
  | load (status : Nat) (responseText : String)
  | netError (status : Nat)
  | timeout (status : Nat) (timeoutMs : Nat)
  deriving DecidableEq

/-- `requestWithXHR` (src utils, XHR transport) for `responseType: json`:
the promise only ever resolves, producing an `[error, data]` tuple
directly — on `onload` it decodes the body (empty text leaves the data
`null`; a `JSON.parse` throw is caught and resolved as `[error, null]`
with the parse `SyntaxError` itself, modelled as a plain error), then
validates the status (resolving the same-shaped
`Request failed with status` `ApiError` carrying the decoded body on
rejection); `onerror`/`ontimeout` resolve their respective `ApiError`s.
No retry and no interceptor chain is involved anywhere on this path. -/
def requestWithXHR (validateStatus : Nat → Bool)
    (parse : String → Except String JsValue) (ev : XhrEvent) :
    Option JsError × JsValue :=
  match ev with
  | .load s txt =>
    match (if txt = "" then Except.ok JsValue.null else parse txt) with
    | .error pm => (some (.plainError pm), .null)
    | .ok v =>
      if validateStatus s then (none, v)
      else (some (.apiError { message := "Request failed with status " ++ Nat.repr s
                              statusCode := some s
                              responseData := some v }), .null)
  | .netError s =>
    (some (.apiError { message := "Network error occurred"
                       statusCode := some s
                       responseData := none }), .null)
  | .timeout s ms =>
    (some (.apiError { message := "Request timed out after " ++ Nat.repr ms ++ "ms"
                       statusCode := some s
                       responseData := none }), .null)

/-- `ApiClient.request` including the early return at ApiClient.ts
lines 452..454: after the cancel-token check (whose throw is handled by
the catch/retry machinery exactly as on the fetch path), when
`useXMLHttpRequest && (onUploadProgress || onDownloadProgress)` the
method returns `requestWithXHR(url, mergedOptions)` directly from inside
the `try` — that promise never rejects, so the `catch` block never runs
for it: no retry, no backoff delay and no error-interceptor application
occur on this path; otherwise the fetch-path retry loop runs as in
`requestDispatch`. -/
def requestFullDispatch (cfg : Config) (useXHR hasProgress : Bool)
    (ev : XhrEvent) (chain : List (JsError → JsError))
    (parse : String → Except String JsValue)
    (attempts : Nat → FetchResult) : LoopResult :=
  match cfg.tokenReason with
  | some _ => requestDispatch cfg chain parse attempts
  | none =>
    if useXHR && hasProgress then
      { outcome := requestWithXHR cfg.validateStatus parse ev
        delays := []
        dispatches := 1
        errChainInputs := [] }
    else requestDispatch cfg chain parse attempts

/-- Fixture: a single registered error interceptor that replaces every
error, making an unapplied chain observable in the Outcome. -/
def interceptAll : List (JsError → JsError) :=
  [fun _ => .plainError "intercepted"]

/-- JS `err?.message || 'Unknown error'` applied to a non-null error:
the fallback fires for an empty (falsy) message. -/
def orUnknownMessage (m : String) : String :=
  if m = "" then "Unknown error" else m

/-- The aggregate message built by `ApiClient.all` when several requests
fail: the failing errors are `results.filter(e not null).map(e)`, and the
enumerated index is each error's position in that *filtered* array. -/
def aggregateMessage (errs : List JsError) : String :=
  "Multiple requests failed: " ++
    String.intercalate "; "
      (errs.enum.map fun p =>
        "Request " ++ Nat.repr p.1 ++ ": " ++ orUnknownMessage p.2.message)

/-- `ApiClient.all` (ApiClient.ts lines 381..420), applied to the settled
`[error, data]` tuples of its request invocations (each invocation's
rejection is already converted to a tuple before aggregation, and the
pipeline itself never rejects).  `errors` is
`results.filter(([e]) => e !== null).map(([e]) => e)`, rendered as
`filterMap` on the error slots. -/
def allCombine (results : List (Option JsError × JsValue)) :
    Option JsError × Option (List JsValue) :=
  let errors := results.filterMap (·.1)
  if errors.length > 0 then
    if errors.length > 1 then
      (some (.apiError { message := aggregateMessage errors
                         statusCode := none
                         responseData := none }), none)
    else
      (some (errors.headD (.plainError "Unknown error")), none)
  else
    (none, some (results.map (·.2)))

/-- A registered interceptor: its identity (JS function reference,
modelled as a tag) together with its transformation. -/
def Registered (α : Type) : Type := Nat × (α → α)

/-- The removal capability returned by `addRequestInterceptor` (and its
response/error siblings): replace the chain by
`chain.filter(i => i !== interceptor)`, dropping every entry whose
reference (tag) is the removed one. -/
def removeInterceptor {α : Type} (tok : Nat) (chain : List (Registered α)) :
    List (Registered α) :=
  chain.filter (fun i => i.1 != tok)

/-- The identities invoked by one chain execution
(`applyRequestInterceptors` iterates, in order, exactly the list the
field holds when the `for..of` loop starts). -/
def chainInvocations {α : Type} (chain : List (Registered α)) : List Nat :=
  chain.map (·.1)

/-- `applyRequestInterceptors` / `applyResponseInterceptors`: fold the
value through the snapshot of the chain in registration order. -/
def applyChain {α : Type} (chain : List (Registered α)) (x : α) : α :=
  chain.foldl (fun acc i => i.2 acc) x

/-- Fixture: the merged configuration of a default client (`retries: 0`,
`retryDelay: 1000`, default `retryStatusCodes` and `validateStatus`, no
cancel token). -/
def cfgBase : Config :=
  { retries := 0
    defaultRetries := 0
    retryDelay := 1000
    retryStatusCodes := some [408, 429, 500, 502, 503, 504]
    validateStatus := defaultValidateStatus
    tokenReason := none }

/-- Fixture: a client-default-retries/budget/token variation of `cfgBase`. -/
def cfgRetry1 : Config := { cfgBase with retries := 1 }

/-- Fixture: a successful response with an empty body. -/
def fetchEmptyBody : Nat → FetchResult := fun _ =>
  .ok { status := 200, statusText := "OK", contentTypeJson := true, bodyText := "" }

/-- Fixture: a successful response whose body is not valid JSON. -/
def fetchBadBody : Nat → FetchResult := fun _ =>
  .ok { status := 200, statusText := "OK", contentTypeJson := true, bodyText := "oops" }

/-- Fixture: every transport call rejects with a network `TypeError`. -/
def fetchNetworkFail : Nat → FetchResult := fun _ =>
  .throws (.typeError "Failed to fetch")

/-- Fixture: `JSON.parse` rejecting every input (the message mirrors the
V8 wording for a non-JSON body). -/
def parseFailTok : String → Except String JsValue := fun _ =>
  .error "Unexpected token o"

/-- The per-call option fields involved in the verb helpers' spread:
`method` and `body` (absent models a property that is not present on the
options object). -/
structure CallOptions where
  method : Option String
  body : Option String
  deriving DecidableEq

/-- JS object spread `{ ...base, ...over }` restricted to the modelled
fields: a field present on `over` wins, otherwise `base`'s value. -/
def jsSpread (base over : CallOptions) : CallOptions :=
  { method := match over.method with | some m => some m | none => base.method
    body := match over.body with | some b => some b | none => base.body }

/-- The options object `ApiClient.get` passes to `request`:
`{ method: 'GET', ...options }`. -/
def getCallOptions (options : CallOptions) : CallOptions :=
  jsSpread { method := some "GET", body := none } options

/-- The options object `ApiClient.post` passes to `request`:
`{ method: 'POST', body: data !== undefined ? JSON.stringify(data)
: undefined, ...options }`, with `JSON.stringify` modelled by the opaque
`stringify`. -/
def postCallOptions (stringify : JsValue → String) (data : Option JsValue)
    (options : CallOptions) : CallOptions :=
  jsSpread { method := some "POST", body := data.map stringify } options

/-- The predicate asserted by the spec's Outcome contract, with "data
populated" read as the data slot holding a non-null value: exactly one of
the two slots is populated. -/
def exactlyOneSlot (o : Option JsError × JsValue) : Prop :=
  (o.1 ≠ none ∧ o.2 = JsValue.null) ∨ (o.1 = none ∧ o.2 ≠ JsValue.null)

instance exactlyOneSlotDecidable (o : Option JsError × JsValue) :
    Decidable (exactlyOneSlot o) := by
  unfold exactlyOneSlot
  exact inferInstance

lemma loop_outcome_shape (cfg : Config) (chain : List (JsError → JsError))
    (parse : String → Except String JsValue) (attempts : Nat → FetchResult) :
    ∀ n k, (requestLoop cfg chain parse attempts n k).outcome.1 = none ∨
      (requestLoop cfg chain parse attempts n k).outcome.2 = JsValue.null := by
  intro n
  induction n with
  | zero =>
    intro k
    rcases hA : attempt cfg parse (attempts k) with ⟨res, d⟩
    cases res with
    | ok v => simp [requestLoop, hA, mkSuccess]
    | error e => simp [requestLoop, hA, mkTerminal]
  | succ r ih =>
    intro k
    rcases hA : attempt cfg parse (attempts k) with ⟨res, d⟩
    cases res with
    | ok v => simp [requestLoop, hA, mkSuccess]
    | error e =>
      by_cases hr : shouldRetry e cfg.retryStatusCodes
      · simpa [requestLoop, hA, hr] using ih (k + 1)
      · simp [requestLoop, hA, hr, mkTerminal]

lemma loop_delays_getD (cfg : Config) (chain : List (JsError → JsError))
    (parse : String → Except String JsValue) (attempts : Nat → FetchResult) :
    ∀ n k j, j < (requestLoop cfg chain parse attempts n k).delays.length →
      (requestLoop cfg chain parse attempts n k).delays.getD j 0 =
        cfg.retryDelay *
          (2 : ℚ) ^ ((cfg.defaultRetries : ℤ) - (n : ℤ) + (j : ℤ)) := by
  intro n
  induction n with
  | zero =>
    intro k j hj
    exfalso
    rcases hA : attempt cfg parse (attempts k) with ⟨res, d⟩
    cases res with
    | ok v => simp [requestLoop, hA, mkSuccess] at hj
    | error e => simp [requestLoop, hA, mkTerminal] at hj
  | succ r ih =>
    intro k j hj
    rcases hA : attempt cfg parse (attempts k) with ⟨res, d⟩
    cases res with
    | ok v => simp [requestLoop, hA, mkSuccess] at hj
    | error e =>
      by_cases hr : shouldRetry e cfg.retryStatusCodes
      · simp only [requestLoop, hA, hr, if_true] at hj ⊢
        cases j with
        | zero =>
          simp
        | succ j' =>
          have hj' : j' < (requestLoop cfg chain parse attempts r (k + 1)).delays.length := by
            simpa using hj
          have := ih (k + 1) j' hj'
          simp only [List.getD_cons_succ, this]
          congr 1
          push_cast
          ring_nf
      · simp [requestLoop, hA, hr, mkTerminal] at hj

lemma loop_errchain (cfg : Config) (chain : List (JsError → JsError))
    (parse : String → Except String JsValue) (attempts : Nat → FetchResult) :
    ∀ n k, ((requestLoop cfg chain parse attempts n k).outcome.1 = none ∧
        (requestLoop cfg chain parse attempts n k).errChainInputs = []) ∨
      (∃ e0, (requestLoop cfg chain parse attempts n k).outcome.1 =
          some (applyErrorInterceptors chain e0) ∧
        (requestLoop cfg chain parse attempts n k).errChainInputs = [e0]) := by
  intro n
  induction n with
  | zero =>
    intro k
    rcases hA : attempt cfg parse (attempts k) with ⟨res, d⟩
    cases res with
    | ok v => simp [requestLoop, hA, mkSuccess]
    | error e => simp [requestLoop, hA, mkTerminal]
  | succ r ih =>
    intro k
    rcases hA : attempt cfg parse (attempts k) with ⟨res, d⟩
    cases res with
    | ok v => simp [requestLoop, hA, mkSuccess]
    | error e =>
      by_cases hr : shouldRetry e cfg.retryStatusCodes
      · simpa [requestLoop, hA, hr] using ih (k + 1)
      · simp [requestLoop, hA, hr, mkTerminal]

lemma loop_cancelled (cfg : Config) (chain : List (JsError → JsError))
    (parse : String → Except String JsValue) (attempts : Nat → FetchResult)
    (r : String) (hTok : cfg.tokenReason = some r) :
    ∀ n k, (requestLoop cfg chain parse attempts n k).dispatches = 0 ∧
      (shouldRetry (cancelFailure r) cfg.retryStatusCodes = false →
        requestLoop cfg chain parse attempts n k =
          mkTerminal chain (cancelFailure r) false) := by
  have hA : ∀ k, attempt cfg parse (attempts k) = (.error (cancelFailure r), false) := by
    intro k
    simp [attempt, hTok]
  intro n
  induction n with
  | zero =>
    intro k
    refine ⟨?_, fun _ => ?_⟩ <;> simp [requestLoop, hA k, mkTerminal]
  | succ m ih =>
    intro k
    constructor
    · by_cases hr : shouldRetry (cancelFailure r) cfg.retryStatusCodes
      · simpa [requestLoop, hA k, hr] using (ih (k + 1)).1
      · simp [requestLoop, hA k, hr, mkTerminal]
    · intro hr
      simp [requestLoop, hA k, hr, mkTerminal]

set_option maxRecDepth 4000 in
lemma httpMsg_no_timeout_substr :
    ∀ s, s < 500 → 400 ≤ s →
      jsIncludes ("Request failed with status " ++ Nat.repr s) "timeout" = false ∧
      jsIncludes ("Request failed with status " ++ Nat.repr s) "timed out" = false := by
  decide

lemma contains_eq_false_of_not_mem {codes : List Nat} {s : Nat}
    (h : s ∉ codes) : codes.contains s = false := by
  induction codes with
  | nil => rfl
  | cons c t ih =>
    have h1 : s ≠ c := by intro hc; exact h (by simp [hc])
    have h2 : s ∉ t := by intro ht; exact h (by simp [ht])
    simp [h1, h2]

lemma shouldRetry_http4xx (s : Nat) (codes : List Nat) (d : JsValue)
    (h4 : 400 ≤ s) (h5 : s < 500) (hmem : s ∉ codes) :
    shouldRetry (httpStatusFailure s d) (some codes) = false := by
  have hmsg := httpMsg_no_timeout_substr s h5 h4
  simp [shouldRetry, httpStatusFailure, retryStatusMatch, serverErrorStatus,
    optIncludes, ApiError.isTimeoutError, contains_eq_false_of_not_mem hmem,
    hmsg.1, hmsg.2]
  exact ⟨fun _ => hmem, fun _ h500 => absurd h500 (by omega)⟩

lemma shouldRetry_http5xx (s : Nat) (codes : Option (List Nat)) (d : JsValue)
    (h5 : 500 ≤ s) (h6 : s < 600) :
    shouldRetry (httpStatusFailure s d) codes = true := by
  simp [shouldRetry, httpStatusFailure, retryStatusMatch, serverErrorStatus,
    optIncludes, ApiError.isTimeoutError]
  exact Or.inl (Or.inr ⟨⟨by omega, h5⟩, h6⟩)

lemma loop_first_terminal (cfg : Config) (chain : List (JsError → JsError))
    (parse : String → Except String JsValue) (attempts : Nat → FetchResult)
    (e : JsError) (d : Bool)
    (hA : attempt cfg parse (attempts 0) = (.error e, d))
    (hr : shouldRetry e cfg.retryStatusCodes = false) :
    requestDispatch cfg chain parse attempts = mkTerminal chain e d := by
  unfold requestDispatch
  cases hn : cfg.retries with
  | zero => simp [requestLoop, hA]
  | succ m => simp [requestLoop, hA, hr]

/-- C1 (counterexample): the claim "exactly one Outcome slot is
populated, never both null — in particular for a successful empty body
under responseType json" is false on the code: a successful response
with an empty body decodes to `null`, and `ApiClient.request` returns
`[null, null]` — both slots null. -/
theorem outcome_contract_counterexample :
    ¬ exactlyOneSlot (requestDispatch cfgBase [] parseFailTok fetchEmptyBody).outcome ∧
    (requestDispatch cfgBase [] parseFailTok fetchEmptyBody).outcome =
      (none, JsValue.null) := by
  decide

/-- C1 (amended): for every request, the two Outcome slots are never both
populated — whenever the error slot holds an error the data slot is the
JS value `null`; both slots are simultaneously null exactly when the
request succeeds with a null decoded value (e.g. an empty body under
responseType json, as `outcome_contract_counterexample` exhibits). -/
theorem outcome_never_both_populated (cfg : Config)
    (chain : List (JsError → JsError)) (parse : String → Except String JsValue)
    (attempts : Nat → FetchResult) :
    (requestDispatch cfg chain parse attempts).outcome.1 = none ∨
    (requestDispatch cfg chain parse attempts).outcome.2 = JsValue.null :=
  loop_outcome_shape cfg chain parse attempts cfg.retries 0

/-- C2 (counterexample): with per-call budget 1 on a client whose default
`retries` is 0 and `retryDelay` 1000, the first (k = 0) backoff delay is
`1000 * 2 ^ (0 - 1) = 500`, not the claimed `retryDelay * 2 ^ 0 = 1000`:
`retryRequest` keys the exponent off `this.defaultOptions.retries`, not
off the per-call configured budget. -/
theorem backoff_exponent_counterexample :
    (requestDispatch cfgRetry1 [] parseFailTok fetchNetworkFail).delays = [(500 : ℚ)] ∧
    (500 : ℚ) ≠ cfgRetry1.retryDelay * (2 : ℚ) ^ (0 : ℕ) := by
  constructor
  · simp [requestDispatch, requestLoop, attempt, cfgRetry1, cfgBase, shouldRetry,
      mkTerminal, fetchNetworkFail, parseFailTok]
    norm_num
  · norm_num [cfgRetry1, cfgBase]

/-- C2 (amended): the delay waited before retry j (0-based) equals
`retryDelay * 2 ^ (defaultRetries - retries + j)`, where `defaultRetries`
is the client-level `defaultOptions.retries` and `retries` the per-call
effective budget; this coincides with `retryDelay * 2 ^ j` only when the
per-call budget equals the client default. -/
theorem backoff_delay_formula (cfg : Config) (chain : List (JsError → JsError))
    (parse : String → Except String JsValue) (attempts : Nat → FetchResult)
    (j : Nat) (hj : j < (requestDispatch cfg chain parse attempts).delays.length) :
    (requestDispatch cfg chain parse attempts).delays.getD j 0 =
      cfg.retryDelay *
        (2 : ℚ) ^ ((cfg.defaultRetries : ℤ) - (cfg.retries : ℤ) + (j : ℤ)) :=
  loop_delays_getD cfg chain parse attempts cfg.retries 0 j hj

/-- C2 (witness): the amended formula applied to a concrete run with one
consumed retry. -/
theorem backoff_delay_formula_witness :
    0 < (requestDispatch cfgRetry1 [] parseFailTok fetchNetworkFail).delays.length ∧
    (requestDispatch cfgRetry1 [] parseFailTok fetchNetworkFail).delays.getD 0 0 =
      cfgRetry1.retryDelay *
        (2 : ℚ) ^ ((cfgRetry1.defaultRetries : ℤ) - (cfgRetry1.retries : ℤ) + ((0 : Nat) : ℤ)) :=
  ⟨by decide, backoff_delay_formula cfgRetry1 [] parseFailTok fetchNetworkFail 0 (by decide)⟩

/-- Fixture for the fan-out combinator: three settled invocations, the
second and third failing. -/
def exThreeResults : List (Option JsError × JsValue) :=
  [(none, .str "ok"),
   (some (.plainError "boom"), .null),
   (some (.plainError "crash"), .null)]

/-- C3 (counterexample): with failures at input indices 1 and 2, the
aggregate message reads `Request 0: ...; Request 1: ...` — the enumerated
indices are positions in the filtered error array, not the failing
invocations' indices in the input list (index 2 is never mentioned). -/
theorem aggregate_index_counterexample :
    (allCombine exThreeResults).1 =
      some (.apiError
        { message := "Multiple requests failed: Request 0: boom; Request 1: crash"
          statusCode := none
          responseData := none }) ∧
    jsIncludes "Multiple requests failed: Request 0: boom; Request 1: crash"
      "Request 2" = false := by
  decide

/-- C3 (amended): zero failures yield the ordered data array with no
error; exactly one failure surfaces that failure's own error; two or more
failures yield a single aggregate error with absent data whose message
enumerates each failing invocation's message keyed by its 0-based
position among the failures (not by its index in the input list). -/
theorem all_combine_cases (results : List (Option JsError × JsValue)) :
    (results.filterMap (·.1) = [] →
      allCombine results = (none, some (results.map (·.2)))) ∧
    (∀ e, results.filterMap (·.1) = [e] → allCombine results = (some e, none)) ∧
    (2 ≤ (results.filterMap (·.1)).length →
      allCombine results =
        (some (.apiError
          { message := aggregateMessage (results.filterMap (·.1))
            statusCode := none
            responseData := none }), none)) := by
  refine ⟨?_, ?_, ?_⟩
  · intro h
    simp [allCombine, h]
  · intro e h
    simp [allCombine, h]
  · intro h
    have h1 : 0 < (results.filterMap (·.1)).length := by omega
    have h2 : 1 < (results.filterMap (·.1)).length := by omega
    simp [allCombine, h1, h2]

/-- C3 (witness): the amended case analysis applied to concrete inputs,
one per branch. -/
theorem all_combine_cases_witness :
    allCombine [] = (none, some []) ∧
    allCombine [(some (.plainError "x"), .null)] = (some (.plainError "x"), none) ∧
    allCombine exThreeResults =
      (some (.apiError
        { message := aggregateMessage (exThreeResults.filterMap (·.1))
          statusCode := none
          responseData := none }), none) :=
  ⟨(all_combine_cases []).1 (by decide),
   (all_combine_cases [(some (.plainError "x"), .null)]).2.1 (.plainError "x") (by decide),
   (all_combine_cases exThreeResults).2.2 (by decide)⟩

/-- C4 (counterexample): cancelling an already-cancelled token is not a
no-op on the stored reason — a second `cancel("second")` after
`cancel("first")` overwrites `_reason` with `"second"`. -/
theorem cancel_overwrites_reason :
    ((CancelToken.cancel ⟨none, [7]⟩ (some "first")).1).reason = some "first" ∧
    ((CancelToken.cancel (CancelToken.cancel ⟨none, [7]⟩ (some "first")).1
        (some "second")).1).reason = some "second" ∧
    (some "second" : Option String) ≠ some "first" := by
  decide

/-- C4 (amended): re-cancelling a cancelled token notifies no observer a
second time (the first cancel cleared the callback list), but it is not a
full no-op: the stored reason is overwritten with the new call's reason
(or the default). -/
theorem cancel_recancel_behaviour (t : CancelToken) (r r' : Option String) :
    ((t.cancel r).1.cancel r').2 = [] ∧
    ((t.cancel r).1.cancel r').1.reason = some (orDefaultReason r') ∧
    (t.cancel r).1.callbacks = [] := by
  simp [CancelToken.cancel]

/-- C5 (code evaluation at the failing input): a successful response with
the non-JSON body `oops` produces a terminal error whose message is the
wrapped `Failed to process response: Failed to parse JSON response: ...`
and whose `responseData` is `undefined` — the raw text attached by the
inner decode error is dropped by the enclosing catch; and an empty body
successfully yields null data with no error. -/
theorem json_decode_error_drops_raw_text :
    (requestDispatch cfgBase [] parseFailTok fetchBadBody).outcome.1 =
      some (.apiError
        { message := "Failed to process response: Failed to parse JSON response: Unexpected token o"
          statusCode := some 200
          responseData := none }) ∧
    (requestDispatch cfgBase [] parseFailTok fetchEmptyBody).outcome =
      (none, JsValue.null) := by
  decide

/-- C6 (confirmed): removing an interceptor through its returned removal
capability replaces the chain by one filtered of that interceptor's
identity, so every chain execution whose snapshot is taken after the
removal — including one for a request already in flight that had not yet
reached this chain — invokes identities among which the removed one never
appears. -/
theorem removed_interceptor_never_invoked (α : Type)
    (chain : List (Registered α)) (tok : Nat) :
    tok ∉ chainInvocations (removeInterceptor tok chain) := by
  simp only [chainInvocations, removeInterceptor, List.mem_map]
  rintro ⟨⟨a, f⟩, hmem, rfl⟩
  have hne := (List.mem_filter.mp hmem).2
  simp at hne

/-- Fixture: a pre-cancelled token whose reason contains the substring
`timeout`, with a positive retry budget. -/
def cfgCancelTimeout : Config :=
  { cfgBase with retries := 1, tokenReason := some "timeout" }

/-- Fixture: a pre-cancelled token with an ordinary reason. -/
def cfgCancelStop : Config :=
  { cfgBase with retries := 2, tokenReason := some "stop" }

/-- C7 (counterexample): a pre-cancelled token does fail before any
transport dispatch, but the failure is not always terminal: when the
stored reason contains `timeout`, the cancellation error's message
matches `isTimeoutError`, `shouldRetry` classifies it retryable, and the
request is retried (one backoff delay is waited) despite the claim that
it is never retried regardless of budget. -/
theorem precancelled_timeout_reason_retried :
    (requestDispatch cfgCancelTimeout [] parseFailTok fetchNetworkFail).delays.length = 1 ∧
    (requestDispatch cfgCancelTimeout [] parseFailTok fetchNetworkFail).dispatches = 0 ∧
    (requestDispatch cfgCancelTimeout [] parseFailTok fetchNetworkFail).outcome.1 =
      some (cancelFailure "timeout") := by
  decide

/-- C7 (amended): with a pre-cancelled token the pipeline makes no
transport dispatch, and — provided the cancellation message
`Request canceled: reason` contains neither `timeout` nor `timed out` —
the cancellation failure is terminal: no retry is attempted and the
Outcome error is the cancellation error after the error-interceptor
chain. -/
theorem precancelled_fails_before_dispatch (cfg : Config)
    (chain : List (JsError → JsError)) (parse : String → Except String JsValue)
    (attempts : Nat → FetchResult) (r : String)
    (hTok : cfg.tokenReason = some r) :
    (requestDispatch cfg chain parse attempts).dispatches = 0 ∧
    (jsIncludes ("Request canceled: " ++ r) "timeout" = false →
     jsIncludes ("Request canceled: " ++ r) "timed out" = false →
      (requestDispatch cfg chain parse attempts).delays = [] ∧
      (requestDispatch cfg chain parse attempts).outcome.1 =
        some (applyErrorInterceptors chain (cancelFailure r)) ∧
      (requestDispatch cfg chain parse attempts).errChainInputs = [cancelFailure r]) := by
  have h := loop_cancelled cfg chain parse attempts r hTok cfg.retries 0
  refine ⟨h.1, fun h1 h2 => ?_⟩
  have hsr : shouldRetry (cancelFailure r) cfg.retryStatusCodes = false := by
    simp [shouldRetry, cancelFailure, retryStatusMatch, serverErrorStatus,
      ApiError.isTimeoutError, h1, h2]
  have hrun := h.2 hsr
  unfold requestDispatch
  rw [hrun]
  simp [mkTerminal]

/-- C7 (witness): the amended statement applied to a concrete
pre-cancelled request with reason `stop` and budget 2. -/
theorem precancelled_fails_before_dispatch_witness :
    (requestDispatch cfgCancelStop [] parseFailTok fetchNetworkFail).dispatches = 0 ∧
    (requestDispatch cfgCancelStop [] parseFailTok fetchNetworkFail).delays = [] ∧
    (requestDispatch cfgCancelStop [] parseFailTok fetchNetworkFail).outcome.1 =
      some (applyErrorInterceptors [] (cancelFailure "stop")) := by
  have h := precancelled_fails_before_dispatch cfgCancelStop [] parseFailTok
    fetchNetworkFail "stop" rfl
  have h2 := h.2 (by decide) (by decide)
  exact ⟨h.1, h2.1, h2.2.1⟩

/-- Fixture: merged configuration with budget `n`, client-default retries
`dflt`, a given retry-status set, and the default status validator. -/
def httpCfg (n dflt : Nat) (codes : List Nat) : Config :=
  { retries := n
    defaultRetries := dflt
    retryDelay := 1000
    retryStatusCodes := some codes
    validateStatus := defaultValidateStatus
    tokenReason := none }

/-- Fixture: every transport call resolves with the given response. -/
def httpFetch (s : Nat) (st : String) (ct : Bool) (body : String) :
    Nat → FetchResult :=
  fun _ => .ok { status := s, statusText := st, contentTypeJson := ct, bodyText := body }

/-- C8 (confirmed): an HTTP status failure with a 4xx code outside the
configured `retryStatusCodes` is classified terminal and the request is
never retried (no backoff delay, exactly one dispatch) for every budget;
any 5xx status is classified retryable independent of the configured
set. -/
theorem status_retry_classification (s : Nat) (codes : List Nat) (d : JsValue)
    (n dflt : Nat) (chain : List (JsError → JsError))
    (parse : String → Except String JsValue) (st : String) (ct : Bool)
    (body : String) :
    (400 ≤ s → s < 500 → s ∉ codes →
      shouldRetry (httpStatusFailure s d) (some codes) = false ∧
      (requestDispatch (httpCfg n dflt codes) chain parse
        (httpFetch s st ct body)).delays = [] ∧
      (requestDispatch (httpCfg n dflt codes) chain parse
        (httpFetch s st ct body)).dispatches = 1) ∧
    (500 ≤ s → s < 600 →
      ∀ codesOpt, shouldRetry (httpStatusFailure s d) codesOpt = true) := by
  constructor
  · intro h4 h5 hmem
    have hval : defaultValidateStatus s = false := by
      simp only [defaultValidateStatus]
      simp
      omega
    have hAtt : attempt (httpCfg n dflt codes) parse (httpFetch s st ct body 0) =
        (.error (httpStatusFailure s
          (bestEffortErrorData parse
            { status := s, statusText := st, contentTypeJson := ct, bodyText := body })), true) := by
      simp [attempt, httpCfg, httpFetch, hval]
    have hsr : shouldRetry
        (httpStatusFailure s
          (bestEffortErrorData parse
            { status := s, statusText := st, contentTypeJson := ct, bodyText := body }))
        (httpCfg n dflt codes).retryStatusCodes = false := by
      simpa [httpCfg] using shouldRetry_http4xx s codes _ h4 h5 hmem
    have hrun := loop_first_terminal (httpCfg n dflt codes) chain parse
      (httpFetch s st ct body) _ true hAtt hsr
    refine ⟨shouldRetry_http4xx s codes d h4 h5 hmem, ?_, ?_⟩ <;>
      simp [hrun, mkTerminal]
  · intro h5 h6 codesOpt
    exact shouldRetry_http5xx s codesOpt d h5 h6

/-- C8 (witness): 404 outside the default retry set is terminal for
budget 3; 503 is retryable even with an empty configured set. -/
theorem status_retry_classification_witness :
    (shouldRetry (httpStatusFailure 404 JsValue.null)
        (some [408, 429, 500, 502, 503, 504]) = false ∧
      (requestDispatch (httpCfg 3 0 [408, 429, 500, 502, 503, 504]) [] parseFailTok
        (httpFetch 404 "Not Found" true "x")).delays = [] ∧
      (requestDispatch (httpCfg 3 0 [408, 429, 500, 502, 503, 504]) [] parseFailTok
        (httpFetch 404 "Not Found" true "x")).dispatches = 1) ∧
    shouldRetry (httpStatusFailure 503 JsValue.null) (some []) = true :=
  ⟨(status_retry_classification 404 [408, 429, 500, 502, 503, 504] JsValue.null 3 0
      [] parseFailTok "Not Found" true "x").1 (by norm_num) (by norm_num) (by decide),
   (status_retry_classification 503 [] JsValue.null 0 0 [] parseFailTok "" true "").2
      (by norm_num) (by norm_num) (some [])⟩

/-- C9 (counterexample): on the `useXMLHttpRequest` + progress branch,
`request` returns `requestWithXHR`'s tuple directly: a network failure is
a terminal error, yet the error-interceptor chain is applied zero times
— the surfaced error is the raw XHR `ApiError`, not the registered
interceptor's output — contradicting "applied exactly once per logical
request on the terminal failure". -/
theorem xhr_terminal_failure_skips_error_chain :
    (requestFullDispatch cfgBase true true (.netError 0) interceptAll
      parseFailTok fetchNetworkFail).outcome.1 =
      some (.apiError { message := "Network error occurred"
                        statusCode := some 0
                        responseData := none }) ∧
    (requestFullDispatch cfgBase true true (.netError 0) interceptAll
      parseFailTok fetchNetworkFail).errChainInputs = [] ∧
    (requestFullDispatch cfgBase true true (.netError 0) interceptAll
      parseFailTok fetchNetworkFail).outcome.1 ≠
      some (applyErrorInterceptors interceptAll
        (.apiError { message := "Network error occurred"
                     statusCode := some 0
                     responseData := none })) := by
  decide

/-- C9 (amended): on the fetch path — whenever the
`useXMLHttpRequest && progress` branch is not taken, or a pre-cancelled
token throws before it is reached — the error-interceptor chain runs
exactly once per logical request, on the terminal failure only (never on
an intermediate failed attempt that is followed by a retry), and a
successful Outcome saw no invocation; a request that takes the
`requestWithXHR` branch instead returns that call's settled tuple
directly and the error-interceptor chain runs zero times, even when that
tuple is a terminal failure. -/
theorem error_interceptors_once_unless_xhr (cfg : Config)
    (useXHR hasProgress : Bool) (ev : XhrEvent)
    (chain : List (JsError → JsError)) (parse : String → Except String JsValue)
    (attempts : Nat → FetchResult) :
    ((useXHR && hasProgress) = false ∨ cfg.tokenReason ≠ none →
      (match (requestFullDispatch cfg useXHR hasProgress ev chain parse
          attempts).outcome.1 with
       | none => (requestFullDispatch cfg useXHR hasProgress ev chain parse
           attempts).errChainInputs = []
       | some e => ∃ e0,
           (requestFullDispatch cfg useXHR hasProgress ev chain parse
             attempts).errChainInputs = [e0] ∧
           e = applyErrorInterceptors chain e0)) ∧
    ((useXHR && hasProgress) = true → cfg.tokenReason = none →
      (requestFullDispatch cfg useXHR hasProgress ev chain parse
        attempts).errChainInputs = [] ∧
      (requestFullDispatch cfg useXHR hasProgress ev chain parse
        attempts).outcome = requestWithXHR cfg.validateStatus parse ev) := by
  constructor
  · intro h
    have hEq : requestFullDispatch cfg useXHR hasProgress ev chain parse attempts =
        requestDispatch cfg chain parse attempts := by
      unfold requestFullDispatch
      cases htok : cfg.tokenReason with
      | some r => rfl
      | none =>
        rcases h with h | h
        · simp [h]
        · exact absurd htok h
    rw [hEq]
    unfold requestDispatch
    rcases loop_errchain cfg chain parse attempts cfg.retries 0 with
      ⟨h1, h2⟩ | ⟨e0, h1, h2⟩
    · simp [h1, h2]
    · simp [h1, h2]
  · intro hxhr htok
    unfold requestFullDispatch
    rw [htok]
    simp [hxhr]

/-- C9 (witness): the amended statement at concrete inputs — a fetch-path
request (flags off) whose terminal network failure passes through the
interceptor chain exactly once, and an XHR-path request whose settled
tuple is returned with zero chain applications. -/
theorem error_interceptors_once_unless_xhr_witness :
    (match (requestFullDispatch cfgBase false false (.netError 0) interceptAll
        parseFailTok fetchNetworkFail).outcome.1 with
     | none => (requestFullDispatch cfgBase false false (.netError 0) interceptAll
         parseFailTok fetchNetworkFail).errChainInputs = []
     | some e => ∃ e0,
         (requestFullDispatch cfgBase false false (.netError 0) interceptAll
           parseFailTok fetchNetworkFail).errChainInputs = [e0] ∧
         e = applyErrorInterceptors interceptAll e0) ∧
    ((requestFullDispatch cfgBase true true (.netError 0) interceptAll
        parseFailTok fetchNetworkFail).errChainInputs = [] ∧
      (requestFullDispatch cfgBase true true (.netError 0) interceptAll
        parseFailTok fetchNetworkFail).outcome =
        requestWithXHR cfgBase.validateStatus parseFailTok (.netError 0)) :=
  ⟨(error_interceptors_once_unless_xhr cfgBase false false (.netError 0)
      interceptAll parseFailTok fetchNetworkFail).1 (Or.inl rfl),
   (error_interceptors_once_unless_xhr cfgBase true true (.netError 0)
      interceptAll parseFailTok fetchNetworkFail).2 rfl rfl⟩

/-- C10 (confirmed): the verb helpers spread the per-call options after
the verb's own fields, so an explicit `method` in the options overrides
`get`'s `GET` (which is used only when the option is absent), and an
explicit `body` in the options overrides `post`'s serialized `data`
argument. -/
theorem verb_option_spread_override (options : CallOptions)
    (stringify : JsValue → String) (data : Option JsValue) :
    (∀ M, options.method = some M → (getCallOptions options).method = some M) ∧
    (options.method = none → (getCallOptions options).method = some "GET") ∧
    (∀ b, options.body = some b →
      (postCallOptions stringify data options).body = some b) ∧
    (options.body = none →
      (postCallOptions stringify data options).body = data.map stringify) := by
  refine ⟨?_, ?_, ?_, ?_⟩
  · intro M h
    simp [getCallOptions, jsSpread, h]
  · intro h
    simp [getCallOptions, jsSpread, h]
  · intro b h
    simp [postCallOptions, jsSpread, h]
  · intro h
    simp [postCallOptions, jsSpread, h]

/-- C10 (witness): concrete overrides — a `DELETE` method and an explicit
body survive the spread; absent options fall back to the verb's fields. -/
theorem verb_option_spread_override_witness :
    (getCallOptions { method := some "DELETE", body := some "bb" }).method = some "DELETE" ∧
    (getCallOptions { method := none, body := none }).method = some "GET" ∧
    (postCallOptions (fun _ => "sj") (some (.str "d"))
      { method := some "DELETE", body := some "bb" }).body = some "bb" ∧
    (postCallOptions (fun _ => "sj") (some (.str "d"))
      { method := none, body := none }).body = (some (JsValue.str "d")).map (fun _ => "sj") :=
  ⟨(verb_option_spread_override { method := some "DELETE", body := some "bb" }
      (fun _ => "sj") (some (.str "d"))).1 "DELETE" rfl,
   (verb_option_spread_override { method := none, body := none }
      (fun _ => "sj") (some (.str "d"))).2.1 rfl,
   (verb_option_spread_override { method := some "DELETE", body := some "bb" }
      (fun _ => "sj") (some (.str "d"))).2.2.1 "bb" rfl,
   (verb_option_spread_override { method := none, body := none }
      (fun _ => "sj") (some (.str "d"))).2.2.2 rfl⟩

end Cios
